import Mathlib

/-!
Shallow embedding of the PICHUKA game core (`src/script.js`).

Numbers that are JS floats (positions, velocities, timestamps) are modelled
as rationals `ℚ`; scores are natural numbers.  DOM-only effects (element
creation, style updates, overlay text) are dropped; the geometric content of
the pipe elements is carried in the `Pipe` record (the element styles set in
`createPipe` are `left = x`, `width = pipeWidth`, `height = topHeight`
resp. `top = bottomY`, `height = bottomHeight`).
-/

namespace Flappy

/-- Constant `state.gravity` (0.45). -/
def gravity : ℚ := 45/100

/-- Constant `state.jumpStrength` (-8.5). -/
def jumpStrength : ℚ := -85/10

/-- Constant `state.pipeSpeed` (2.4). -/
def pipeSpeed : ℚ := 24/10

/-- Constant `state.pipeWidth` (68). -/
def pipeWidth : ℚ := 68

/-- Constant `state.pipeGap` (170). -/
def pipeGap : ℚ := 170

/-- Constant `state.pipeInterval` (1550 ms). -/
def pipeInterval : ℚ := 1550

/-- Constant `state.minPipeHeight` (70). -/
def minPipeHeight : ℚ := 70

/-- Constant `state.birdX` (90); the bird's horizontal position never changes. -/
def birdX : ℚ := 90

/-- The three values of `state.gameState`: "start" | "playing" | "gameover". -/
inductive Mode where
  | start
  | playing
  | gameover
deriving DecidableEq, Repr

/-- One pipe record pushed onto `state.pipes` in `createPipe`: the fields
`x`, `topHeight`, `bottomY`, `passed` of the JS object, plus `bottomHeight`,
which the JS keeps as the height style of the bottom element. -/
structure Pipe where
  x : ℚ
  topHeight : ℚ
  bottomY : ℚ
  bottomHeight : ℚ
  passed : Bool
deriving DecidableEq, Repr

/-- The geometry read back by `getSizes()` each frame. -/
structure Sizes where
  gameWidth : ℚ
  gameHeight : ℚ
  groundHeight : ℚ
  birdWidth : ℚ
  birdHeight : ℚ
deriving DecidableEq, Repr

/-- The mutable simulation state (the non-DOM fields of the JS `state`). -/
structure GameState where
  gameState : Mode
  birdY : ℚ
  birdVelocity : ℚ
  score : ℕ
  highScore : ℕ
  pipes : List Pipe
  lastPipeTime : ℚ
  lastFrameTime : ℚ
deriving DecidableEq, Repr

/-- An axis-aligned rectangle as produced by `getBoundingClientRect`,
translated into game coordinates. -/
structure Rect where
  left : ℚ
  top : ℚ
  right : ℚ
  bottom : ℚ
deriving DecidableEq, Repr

/-- Function `resetBird()`: centre the bird vertically in the playable strip and zero
its velocity. -/
def resetBird (sz : Sizes) (s : GameState) : GameState :=
  { s with
    birdY := (sz.gameHeight - sz.groundHeight - sz.birdHeight) / 2
    birdVelocity := 0 }

/-- Function `resetGameState()`: zero the score and both timestamps, clear the pipes,
recentre the bird. -/
def resetGameState (sz : Sizes) (s : GameState) : GameState :=
  resetBird sz
    { s with
      score := 0
      lastPipeTime := 0
      lastFrameTime := 0
      pipes := [] }

/-- The pipe record built by `createPipe(now)`: spawned at the right edge,
with `topHeight = random * (maxTopHeight - minPipeHeight) + minPipeHeight`
for a uniform draw `r ∈ [0,1)`. -/
def newPipe (sz : Sizes) (r : ℚ) : Pipe :=
  let availableHeight := sz.gameHeight - sz.groundHeight
  let maxTopHeight := availableHeight - pipeGap - minPipeHeight
  let topHeight := r * (maxTopHeight - minPipeHeight) + minPipeHeight
  let bottomY := topHeight + pipeGap
  { x := sz.gameWidth
    topHeight := topHeight
    bottomY := bottomY
    bottomHeight := availableHeight - bottomY
    passed := false }

/-- Function `createPipe(now)`: append the freshly drawn pipe and record `now` as the
last spawn time. -/
def createPipe (sz : Sizes) (r : ℚ) (now : ℚ) (s : GameState) : GameState :=
  { s with
    pipes := s.pipes ++ [newPipe sz r]
    lastPipeTime := now }

/-- The body of the `forEach` in `updatePipes` for one pipe: shift it left by
`moveBy`, and if it is unscored and the bird's front edge has passed its
trailing edge, flag it and bump score (and high score when exceeded).
Returns the updated pipe, score and high score. -/
def stepPipe (birdFront moveBy : ℚ) (p : Pipe) (score high : ℕ) :
    Pipe × ℕ × ℕ :=
  let p1 : Pipe := { p with x := p.x - moveBy }
  if p1.passed = false ∧ birdFront > p1.x + pipeWidth then
    let score2 := score + 1
    ({ p1 with passed := true }, score2,
      if score2 > high then score2 else high)
  else
    (p1, score, high)

/-- The whole `forEach` of `updatePipes`, threading score and high score left
to right through the pipe list. -/
def runPipes (birdFront moveBy : ℚ) :
    List Pipe → ℕ → ℕ → List Pipe × ℕ × ℕ
  | [], score, high => ([], score, high)
  | p :: ps, score, high =>
    let t := stepPipe birdFront moveBy p score high
    let rest := runPipes birdFront moveBy ps t.2.1 t.2.2
    (t.1 :: rest.1, rest.2.1, rest.2.2)

/-- The filter at the end of `updatePipes`: keep a pipe exactly when
`pipe.x + pipeWidth > -10`. -/
def evict (ps : List Pipe) : List Pipe :=
  ps.filter fun p => decide (p.x + pipeWidth > -10)

/-- Function `updatePipes(deltaSec)`: move and score every pipe, then evict. -/
def updatePipes (sz : Sizes) (deltaSec : ℚ) (s : GameState) : GameState :=
  let moveBy := pipeSpeed * 60 * deltaSec
  let birdFront := birdX + sz.birdWidth
  let t := runPipes birdFront moveBy s.pipes s.score s.highScore
  { s with
    pipes := evict t.1
    score := t.2.1
    highScore := t.2.2 }

/-- Function `intersects(a, b)`: strict open-interval overlap on both axes. -/
def intersects (a b : Rect) : Bool :=
  decide (a.left < b.right) && decide (a.right > b.left) &&
    decide (a.top < b.bottom) && decide (a.bottom > b.top)

/-- The bird's bounding rectangle in game coordinates. -/
def birdRect (sz : Sizes) (s : GameState) : Rect :=
  { left := birdX
    top := s.birdY
    right := birdX + sz.birdWidth
    bottom := s.birdY + sz.birdHeight }

/-- Modelled from the spec: the top segment's rectangle.  Its horizontal
extent and height come from the styles `createPipe` sets, but its vertical
anchor comes from the stylesheet rule for class `pipe-top`, which is not in
the sources; per the spec the top segment spans from the field's top edge
down `topHeight` units. -/
def pipeTopRect (p : Pipe) : Rect :=
  { left := p.x, top := 0, right := p.x + pipeWidth, bottom := p.topHeight }

/-- The bottom segment's rectangle, from the styles `createPipe` sets:
`top = bottomY`, `height = bottomHeight`. -/
def pipeBottomRect (p : Pipe) : Rect :=
  { left := p.x
    top := p.bottomY
    right := p.x + pipeWidth
    bottom := p.bottomY + p.bottomHeight }

/-- Function `hasCollision()`: inclusive checks against the top of the field and the
ground line, then strict rectangle intersection against every pipe segment. -/
def hasCollision (sz : Sizes) (s : GameState) : Bool :=
  let br := birdRect sz s
  if br.top ≤ 0 then true
  else if br.bottom ≥ sz.gameHeight - sz.groundHeight then true
  else s.pipes.any fun p =>
    intersects br (pipeTopRect p) || intersects br (pipeBottomRect p)

/-- Function `endGame()`: enter the gameover mode (DOM/overlay effects dropped). -/
def endGame (s : GameState) : GameState :=
  { s with gameState := Mode.gameover }

/-- The clamped integration step of `gameLoop`:
`Math.min((now - lastFrameTime) / 1000, 0.05)`. -/
def deltaSecOf (now lastFrameTime : ℚ) : ℚ :=
  min ((now - lastFrameTime) / 1000) (1/20)

/-- Lines 219-220 of `gameLoop`: the semi-implicit Euler step on
(velocity, position) for a given `deltaSec`. -/
def physStep (deltaSec v y : ℚ) : ℚ × ℚ :=
  let v2 := v + gravity * 60 * deltaSec
  (v2, y + v2 * 60 * deltaSec)

/-- The physics part of one frame: clamp the elapsed seconds to 0.05 and
take one Euler step. -/
def integrate (elapsedSeconds v y : ℚ) : ℚ × ℚ :=
  physStep (min elapsedSeconds (1/20)) v y

/-- Iteration of `integrate`, `n` times with the same elapsed time per frame. -/
def integrateN (elapsedSeconds : ℚ) : ℕ → ℚ × ℚ → ℚ × ℚ
  | 0, vy => vy
  | n + 1, vy =>
    let prev := integrateN elapsedSeconds n vy
    integrate elapsedSeconds prev.1 prev.2

/-- The spawn guard of `gameLoop`:
`!state.lastPipeTime || now - state.lastPipeTime >= state.pipeInterval`
(a zero timestamp is falsy). -/
def shouldSpawn (now lastPipeTime interval : ℚ) : Bool :=
  decide (lastPipeTime = 0) || decide (now - lastPipeTime ≥ interval)

/-- One invocation of `gameLoop(now)`: no-op unless playing; otherwise clamp
the elapsed time, integrate physics, maybe spawn a pipe, move/score/evict
pipes, and end the game on collision.  `r` is the random draw used if a pipe
spawns this frame. -/
def gameFrame (sz : Sizes) (r : ℚ) (now : ℚ) (s : GameState) : GameState :=
  if s.gameState ≠ Mode.playing then s
  else
    let lastF := if s.lastFrameTime = 0 then now else s.lastFrameTime
    let deltaSec := deltaSecOf now lastF
    let vy := physStep deltaSec s.birdVelocity s.birdY
    let s1 : GameState :=
      { s with
        lastFrameTime := now
        birdVelocity := vy.1
        birdY := vy.2 }
    let s2 :=
      if shouldSpawn now s1.lastPipeTime pipeInterval then
        createPipe sz r now s1
      else s1
    let s3 := updatePipes sz deltaSec s2
    if hasCollision sz s3 then endGame s3 else s3

/-- Function `startPlaying()`: while playing, an activation is just a jump; from
start or gameover it resets the session, enters playing and applies the
first jump. -/
def startPlaying (sz : Sizes) (s : GameState) : GameState :=
  if s.gameState = Mode.playing then
    { s with birdVelocity := jumpStrength }
  else if s.gameState = Mode.start ∨ s.gameState = Mode.gameover then
    let s1 := resetGameState sz s
    { s1 with
      gameState := Mode.playing
      birdVelocity := jumpStrength }
  else s

/-- Iteration of `stepPipe` on one pipe, for repeated-evaluation statements. -/
def stepPipeN (birdFront moveBy : ℚ) : ℕ → Pipe × ℕ × ℕ → Pipe × ℕ × ℕ
  | 0, t => t
  | n + 1, (p, score, high) =>
    stepPipeN birdFront moveBy n (stepPipe birdFront moveBy p score high)

/-- A concrete geometry used by witnesses: 400x500 field, 50 ground strip,
40x28 bird. -/
def szW : Sizes := ⟨400, 500, 50, 40, 28⟩

/-- A concrete mid-session playing state used by witnesses. -/
def stW : GameState := ⟨Mode.playing, 211, 0, 0, 0, [], 0, 5⟩

/-- A concrete fresh playing state (both timestamps still zero). -/
def st0W : GameState := ⟨Mode.playing, 211, 0, 0, 0, [], 0, 0⟩

/-- A concrete playing state with the bird exactly on the upper boundary. -/
def stTopW : GameState := ⟨Mode.playing, 0, 0, 0, 0, [], 0, 0⟩

/-- A concrete game-over state with a nonzero score and high score. -/
def stGOW : GameState := ⟨Mode.gameover, 300, 4, 2, 7, [⟨120, 100, 270, 180, true⟩], 900, 950⟩

/-- A concrete playing state holding one unscored pipe the bird has already
overtaken (bird front 130 is past trailing edge -30 + 68 = 38). -/
def stScoreW : GameState :=
  ⟨Mode.playing, 211, 0, 3, 3, [⟨-30, 100, 270, 180, false⟩], 0, 5⟩

/-- A two-pipe state produced by a concrete run: spawn at t=1000, advance one
frame of 1/60 s, spawn again at t=2600. -/
def c8state : GameState :=
  createPipe szW (1/2) 2600 (updatePipes szW (1/60) (createPipe szW (1/2) 1000 st0W))

/-- A concrete unscored pipe the bird (front edge 130) has overtaken. -/
def pW : Pipe := ⟨-30, 100, 270, 180, false⟩

/-- The same pipe with its scored flag already set. -/
def pWdone : Pipe := ⟨-30, 100, 270, 180, true⟩

/-- C1 (counterexample): a gate at x = -78 — trailing edge exactly -10 — IS
removed by the eviction filter, even though its trailing edge has not
scrolled strictly below -10; the claim says exactly such a gate is kept. -/
theorem evict_boundary_counterexample :
    evict [{ x := -78, topHeight := 100, bottomY := 270, bottomHeight := 180,
             passed := false }] = []
      ∧ ¬ ((-78 : ℚ) + pipeWidth < -10) := by
  constructor
  · norm_num [evict, List.filter_cons, List.filter_nil, pipeWidth]
  · norm_num [pipeWidth]

/-- C1 (amended): the eviction filter keeps a gate exactly when its trailing
edge `x + pipeWidth` is strictly greater than -10; equivalently it removes
exactly the gates whose trailing edge is ≤ -10, so the boundary gate at
trailing edge -10 (x = -78) is evicted, as is x = -79; FIFO order is
preserved since filtering never reorders. -/
theorem evict_mem_iff (ps : List Pipe) (p : Pipe) :
    p ∈ evict ps ↔ p ∈ ps ∧ p.x + pipeWidth > -10 := by
  simp [evict, List.mem_filter]

/-- C2 (counterexample): stepping the frame integrator with elapsed
deltaSeconds = 0.1 from velocity 0 does NOT give velocity 2.7 and a 16.2
position increase — the step is clamped to 0.05 s. -/
theorem integrate_tenth_counterexample :
    (integrateN (1/10) 1 (0, 211)).1 ≠ 27/10
      ∧ (integrateN (1/10) 1 (0, 211)).2 - 211 ≠ 81/5 := by
  have h1 : integrateN (1/10) 1 ((0 : ℚ), (211 : ℚ)) = integrate (1/10) 0 211 := rfl
  constructor <;> rw [h1] <;> norm_num [integrate, physStep, gravity, min_def]

/-- C2 (amended): starting from velocity 0 with gravity 0.45 and no input,
repeatedly stepping the integrator with elapsed deltaSeconds = 0.1 — which
the integrator clamps to 0.05 — yields
`v_{n+1} = v_n + 0.45*60*0.05` and `y_{n+1} = y_n + v_{n+1}*60*0.05`; after
the first frame the velocity equals 1.35 and the position has increased by
4.05. -/
theorem integrate_clamped_recurrence (n : ℕ) (y0 : ℚ) :
    (integrateN (1/10) (n + 1) (0, y0)).1
        = (integrateN (1/10) n (0, y0)).1 + gravity * 60 * (1/20)
      ∧ (integrateN (1/10) (n + 1) (0, y0)).2
        = (integrateN (1/10) n (0, y0)).2
            + (integrateN (1/10) (n + 1) (0, y0)).1 * 60 * (1/20)
      ∧ (integrateN (1/10) 1 (0, y0)).1 = 27/20
      ∧ (integrateN (1/10) 1 (0, y0)).2 = y0 + 81/20 := by
  have hmin : min ((1 : ℚ)/10) (1/20) = 1/20 := by norm_num [min_def]
  have hstep : ∀ m : ℕ, integrateN (1/10) (m + 1) ((0 : ℚ), y0)
      = integrate (1/10) (integrateN (1/10) m ((0 : ℚ), y0)).1
          (integrateN (1/10) m ((0 : ℚ), y0)).2 := fun m => rfl
  have hone : integrateN (1/10) 1 ((0 : ℚ), y0) = integrate (1/10) 0 y0 := rfl
  have hint : ∀ v y : ℚ, integrate (1/10) v y
      = (v + gravity * 60 * min (1/10) (1/20),
          y + (v + gravity * 60 * min (1/10) (1/20)) * 60 * min (1/10) (1/20)) :=
    fun v y => rfl
  refine ⟨?_, ?_, ?_, ?_⟩
  · rw [hstep n, hint, hmin]
  · rw [hstep n, hint, hmin]
  · rw [hone, hint, hmin]
    norm_num [gravity]
  · rw [hone, hint, hmin]
    norm_num [gravity]

/-- C9: the integration step actually used in a frame never exceeds 0.05 s;
an elapsed time above 0.05 s is clamped to exactly 0.05, and the frame still
proceeds normally: a playing state with a nonzero last-frame timestamp still
gets its velocity integrated with the clamped step and its last-frame
timestamp advanced to `now`. -/
theorem frame_step_clamped :
    (∀ now last : ℚ, deltaSecOf now last ≤ 1/20)
      ∧ (∀ now last : ℚ, 1/20 < (now - last) / 1000 → deltaSecOf now last = 1/20)
      ∧ (∀ (sz : Sizes) (r now : ℚ) (s : GameState),
          s.gameState = Mode.playing → s.lastFrameTime ≠ 0 →
          (gameFrame sz r now s).birdVelocity
              = s.birdVelocity + gravity * 60 * deltaSecOf now s.lastFrameTime
            ∧ (gameFrame sz r now s).lastFrameTime = now) := by
  refine ⟨fun now last => min_le_right _ _, ?_, ?_⟩
  · intro now last h
    unfold deltaSecOf
    exact min_eq_right h.le
  · intro sz r now s hplay hlast
    have hne : ¬ s.gameState ≠ Mode.playing := by simp [hplay]
    unfold gameFrame
    rw [if_neg hne, if_neg hlast]
    constructor
    · dsimp only
      split_ifs <;> rfl
    · dsimp only
      split_ifs <;> rfl

/-- Witness for C9 at concrete inputs: 100 ms elapsed is clamped to 0.05 s
and the concrete playing state is integrated with the clamped step. -/
theorem frame_step_clamped_witness :
    deltaSecOf 105 5 = 1/20
      ∧ (gameFrame szW (1/2) 105 stW).birdVelocity
          = stW.birdVelocity + gravity * 60 * deltaSecOf 105 stW.lastFrameTime
      ∧ (gameFrame szW (1/2) 105 stW).lastFrameTime = 105 := by
  refine ⟨frame_step_clamped.2.1 105 5 (by norm_num), ?_, ?_⟩
  · exact (frame_step_clamped.2.2 szW (1/2) 105 stW rfl (by decide)).1
  · exact (frame_step_clamped.2.2 szW (1/2) 105 stW rfl (by decide)).2

/-- C10: a gate created at timestamp now = 0 records last-spawn time 0, the
same value the spawn guard treats as unset, so the guard fires on the next
frame regardless of interval; the spawn timer only gates spawning when the
recorded timestamp is nonzero. -/
theorem spawn_zero_sentinel :
    (∀ (sz : Sizes) (r : ℚ) (s : GameState),
        (createPipe sz r 0 s).lastPipeTime = 0)
      ∧ (∀ now interval : ℚ, shouldSpawn now 0 interval = true)
      ∧ (∀ now last interval : ℚ, last ≠ 0 →
          (shouldSpawn now last interval = true ↔ now - last ≥ interval)) := by
  refine ⟨fun sz r s => rfl, fun now interval => by simp [shouldSpawn], ?_⟩
  intro now last interval h
  simp [shouldSpawn, h]

/-- C3: collision with a gate segment requires strict open-interval overlap
on both axes — an edge merely touching never intersects — while the
field-boundary checks are inclusive: the bird's top at (or above) the upper
boundary, or its bottom at (or below) the ground line, already collides; and
a bird strictly inside the field with no strict segment overlap does not
collide. -/
theorem collision_asymmetry :
    (∀ a b : Rect,
        a.right = b.left ∨ b.right = a.left ∨ a.bottom = b.top ∨ b.bottom = a.top →
        intersects a b = false)
      ∧ (∀ (sz : Sizes) (s : GameState), s.birdY ≤ 0 → hasCollision sz s = true)
      ∧ (∀ (sz : Sizes) (s : GameState),
          s.birdY + sz.birdHeight ≥ sz.gameHeight - sz.groundHeight →
          hasCollision sz s = true)
      ∧ (∀ (sz : Sizes) (s : GameState), 0 < s.birdY →
          s.birdY + sz.birdHeight < sz.gameHeight - sz.groundHeight →
          (∀ p ∈ s.pipes,
            intersects (birdRect sz s) (pipeTopRect p) = false ∧
              intersects (birdRect sz s) (pipeBottomRect p) = false) →
          hasCollision sz s = false) := by
  refine ⟨?_, ?_, ?_, ?_⟩
  · intro a b h
    rcases h with h | h | h | h <;> simp [intersects, h]
  · intro sz s h
    simp [hasCollision, birdRect, h]
  · intro sz s h
    simp [hasCollision, birdRect, h]
  · intro sz s h1 h2 hseg
    have hn1 : ¬ (s.birdY ≤ 0) := not_le.mpr h1
    have hn2 : ¬ (s.birdY + sz.birdHeight ≥ sz.gameHeight - sz.groundHeight) :=
      not_le.mpr h2
    simp only [hasCollision, birdRect]
    rw [if_neg hn1, if_neg hn2]
    simp only [List.any_eq_false, Bool.or_eq_true, not_or]
    intro p hp
    have h3 := hseg p hp
    simp only [birdRect] at h3
    simp [h3.1, h3.2]

/-- Witness for C3 at concrete inputs: rectangles sharing an edge do not
intersect, a bird on the upper boundary collides, and a bird strictly inside
an empty field does not. -/
theorem collision_asymmetry_witness :
    intersects ⟨0, 0, 10, 10⟩ ⟨10, 0, 20, 10⟩ = false
      ∧ hasCollision szW stTopW = true
      ∧ hasCollision szW stW = false :=
  ⟨collision_asymmetry.1 ⟨0, 0, 10, 10⟩ ⟨10, 0, 20, 10⟩ (Or.inl rfl),
   collision_asymmetry.2.1 szW stTopW (by norm_num [stTopW]),
   collision_asymmetry.2.2.2 szW stW (by norm_num [stW])
     (by norm_num [stW, szW]) (by simp [stW])⟩

/-- C5: activating from Start or GameOver yields score 0, an empty gate
collection, the bird at the vertical centre of the playable field, velocity
equal to the impulse constant, and the Playing mode. -/
theorem startPlaying_resets (sz : Sizes) (s : GameState)
    (h : s.gameState = Mode.start ∨ s.gameState = Mode.gameover) :
    (startPlaying sz s).score = 0
      ∧ (startPlaying sz s).pipes = []
      ∧ (startPlaying sz s).birdY
          = (sz.gameHeight - sz.groundHeight - sz.birdHeight) / 2
      ∧ (startPlaying sz s).birdVelocity = jumpStrength
      ∧ (startPlaying sz s).gameState = Mode.playing := by
  have hnp : ¬ s.gameState = Mode.playing := by
    rcases h with h | h <;> simp [h]
  unfold startPlaying
  rw [if_neg hnp, if_pos h]
  exact ⟨rfl, rfl, rfl, rfl, rfl⟩

/-- Witness for C5 at a concrete game-over state with nonzero score and a
pipe in play. -/
theorem startPlaying_resets_witness :
    (startPlaying szW stGOW).score = 0
      ∧ (startPlaying szW stGOW).pipes = []
      ∧ (startPlaying szW stGOW).birdVelocity = jumpStrength :=
  ⟨(startPlaying_resets szW stGOW (Or.inr rfl)).1,
   (startPlaying_resets szW stGOW (Or.inr rfl)).2.1,
   (startPlaying_resets szW stGOW (Or.inr rfl)).2.2.2.1⟩

/-- C7: for a draw r ∈ [0,1) and availableHeight ≥ gapSize + 2·minHeight,
the new gate's top height lies in
[minHeight, availableHeight - gapSize - minHeight], and both segments are at
least minHeight tall. -/
theorem newPipe_heights (sz : Sizes) (r : ℚ)
    (hr0 : 0 ≤ r) (hr1 : r < 1)
    (hgeom : sz.gameHeight - sz.groundHeight ≥ pipeGap + 2 * minPipeHeight) :
    minPipeHeight ≤ (newPipe sz r).topHeight
      ∧ (newPipe sz r).topHeight
          ≤ sz.gameHeight - sz.groundHeight - pipeGap - minPipeHeight
      ∧ minPipeHeight ≤ (newPipe sz r).bottomHeight := by
  have ht : (newPipe sz r).topHeight
      = r * (sz.gameHeight - sz.groundHeight - pipeGap - minPipeHeight
              - minPipeHeight) + minPipeHeight := rfl
  have hb : (newPipe sz r).bottomHeight
      = sz.gameHeight - sz.groundHeight
          - ((newPipe sz r).topHeight + pipeGap) := rfl
  have hd : 0 ≤ sz.gameHeight - sz.groundHeight - pipeGap - 2 * minPipeHeight := by
    linarith
  have hrd0 : 0 ≤ r * (sz.gameHeight - sz.groundHeight - pipeGap
      - 2 * minPipeHeight) := mul_nonneg hr0 hd
  have hrd : r * (sz.gameHeight - sz.groundHeight - pipeGap - 2 * minPipeHeight)
      ≤ sz.gameHeight - sz.groundHeight - pipeGap - 2 * minPipeHeight := by
    nlinarith
  refine ⟨?_, ?_, ?_⟩
  · rw [ht]
    nlinarith
  · rw [ht]
    nlinarith
  · rw [hb, ht]
    nlinarith

/-- Witness for C7 at a concrete 450-unit available height and r = 1/2. -/
theorem newPipe_heights_witness :
    minPipeHeight ≤ (newPipe szW (1/2)).topHeight
      ∧ minPipeHeight ≤ (newPipe szW (1/2)).bottomHeight :=
  ⟨(newPipe_heights szW (1/2) (by norm_num) (by norm_num)
      (by norm_num [szW, pipeGap, minPipeHeight])).1,
   (newPipe_heights szW (1/2) (by norm_num) (by norm_num)
      (by norm_num [szW, pipeGap, minPipeHeight])).2.2⟩

/-- Witness for C10 at concrete inputs. -/
theorem spawn_zero_sentinel_witness :
    (createPipe szW (1/2) 0 st0W).lastPipeTime = 0
      ∧ shouldSpawn 100 0 1550 = true
      ∧ (shouldSpawn 1600 100 1550 = true ↔ (1600 : ℚ) - 100 ≥ 1550) :=
  ⟨spawn_zero_sentinel.1 szW (1/2) st0W,
   spawn_zero_sentinel.2.1 100 1550,
   spawn_zero_sentinel.2.2 1600 100 1550 (by norm_num)⟩

/-- One scoring step shifts the pipe left by `moveBy` whatever else happens. -/
theorem stepPipe_x (bf mb : ℚ) (p : Pipe) (sc hi : ℕ) :
    (stepPipe bf mb p sc hi).1.x = p.x - mb := by
  simp only [stepPipe]
  split_ifs <;> rfl

/-- One scoring step never lowers the high score. -/
theorem stepPipe_high_le (bf mb : ℚ) (p : Pipe) (sc hi : ℕ) :
    hi ≤ (stepPipe bf mb p sc hi).2.2 := by
  simp only [stepPipe]
  split_ifs with h1 h2
  · exact le_of_lt h2
  · exact le_refl hi
  · exact le_refl hi

/-- One scoring step preserves the invariant: a changed score is bounded by
the high score. -/
theorem stepPipe_inv (bf mb : ℚ) (p : Pipe) (sc hi sc0 : ℕ)
    (h : sc ≠ sc0 → sc ≤ hi) :
    (stepPipe bf mb p sc hi).2.1 ≠ sc0 →
      (stepPipe bf mb p sc hi).2.1 ≤ (stepPipe bf mb p sc hi).2.2 := by
  simp only [stepPipe]
  split_ifs with h1 h2
  · intro _
    exact le_refl (sc + 1)
  · intro _
    exact Nat.not_lt.mp h2
  · exact h

/-- Threading the whole pipe list never lowers the high score. -/
theorem runPipes_high_le (bf mb : ℚ) (ps : List Pipe) (sc hi : ℕ) :
    hi ≤ (runPipes bf mb ps sc hi).2.2 := by
  induction ps generalizing sc hi with
  | nil => exact le_refl hi
  | cons p ps ih =>
    simp only [runPipes]
    exact le_trans (stepPipe_high_le bf mb p sc hi) (ih _ _)

/-- Threading the whole pipe list preserves the invariant: a changed score
is bounded by the high score. -/
theorem runPipes_score_le (bf mb : ℚ) (ps : List Pipe) (sc hi sc0 : ℕ)
    (h : sc ≠ sc0 → sc ≤ hi) :
    (runPipes bf mb ps sc hi).2.1 ≠ sc0 →
      (runPipes bf mb ps sc hi).2.1 ≤ (runPipes bf mb ps sc hi).2.2 := by
  induction ps generalizing sc hi with
  | nil => exact h
  | cons p ps ih =>
    simp only [runPipes]
    exact ih _ _ (stepPipe_inv bf mb p sc hi sc0 h)

/-- C4: after any scoring event (an update that changed the score) the score
is bounded by the high score, and no operation — pipe update, session reset,
game over, activation, pipe spawn, or a whole frame — ever decreases the
high score. -/
theorem highScore_invariants :
    (∀ (sz : Sizes) (ds : ℚ) (s : GameState),
        s.highScore ≤ (updatePipes sz ds s).highScore
          ∧ ((updatePipes sz ds s).score ≠ s.score →
              (updatePipes sz ds s).score ≤ (updatePipes sz ds s).highScore))
      ∧ (∀ (sz : Sizes) (s : GameState),
          (resetGameState sz s).highScore = s.highScore)
      ∧ (∀ s : GameState, (endGame s).highScore = s.highScore)
      ∧ (∀ (sz : Sizes) (s : GameState),
          (startPlaying sz s).highScore = s.highScore)
      ∧ (∀ (sz : Sizes) (r now : ℚ) (s : GameState),
          (createPipe sz r now s).highScore = s.highScore)
      ∧ (∀ (sz : Sizes) (r now : ℚ) (s : GameState),
          s.highScore ≤ (gameFrame sz r now s).highScore) := by
  refine ⟨?_, fun sz s => rfl, fun s => rfl, ?_, fun sz r now s => rfl, ?_⟩
  · intro sz ds s
    exact ⟨runPipes_high_le _ _ s.pipes s.score s.highScore,
      runPipes_score_le _ _ s.pipes s.score s.highScore s.score
        (fun hne => absurd rfl hne)⟩
  · intro sz s
    unfold startPlaying
    split_ifs <;> rfl
  · intro sz r now s
    unfold gameFrame
    by_cases hmode : s.gameState ≠ Mode.playing
    · rw [if_pos hmode]
    · rw [if_neg hmode]
      dsimp only
      split_ifs <;> exact runPipes_high_le _ _ _ _ _

/-- Witness for C4: a concrete update that awards a point pushes the high
score to the new score. -/
theorem highScore_invariants_witness :
    (updatePipes szW 0 stScoreW).score ≤ (updatePipes szW 0 stScoreW).highScore
      ∧ stScoreW.highScore ≤ (updatePipes szW 0 stScoreW).highScore :=
  ⟨(highScore_invariants.1 szW 0 stScoreW).2
      (by norm_num [updatePipes, runPipes, stepPipe, stScoreW, szW, birdX,
        pipeSpeed, pipeWidth]),
   (highScore_invariants.1 szW 0 stScoreW).1⟩

/-- Iterated evaluation of an already-scored pipe changes neither the score
nor the flag. -/
theorem stepPipeN_passed (bf mb : ℚ) (n : ℕ) (p : Pipe) (sc hi : ℕ)
    (h : p.passed = true) :
    (stepPipeN bf mb n (p, sc, hi)).2.1 = sc
      ∧ (stepPipeN bf mb n (p, sc, hi)).1.passed = true := by
  induction n generalizing p sc hi with
  | zero => exact ⟨rfl, h⟩
  | succ n ih =>
    have hstep : stepPipe bf mb p sc hi = ({ p with x := p.x - mb }, sc, hi) := by
      simp [stepPipe, h]
    show (stepPipeN bf mb n (stepPipe bf mb p sc hi)).2.1 = sc
        ∧ (stepPipeN bf mb n (stepPipe bf mb p sc hi)).1.passed = true
    rw [hstep]
    exact ih _ _ _ h

/-- C6: scoring is idempotent per gate — a step increments the score for a
gate only on the gate's false→true flag transition, and once the flag is
set, any number of further evaluation steps leaves the flag set and the
score unchanged. -/
theorem scoring_idempotent (bf mb : ℚ) (p : Pipe) (sc hi : ℕ) :
    ((stepPipe bf mb p sc hi).2.1 ≠ sc →
        p.passed = false ∧ (stepPipe bf mb p sc hi).1.passed = true)
      ∧ (∀ n : ℕ, p.passed = true →
          (stepPipeN bf mb n (p, sc, hi)).2.1 = sc
            ∧ (stepPipeN bf mb n (p, sc, hi)).1.passed = true) := by
  constructor
  · simp only [stepPipe]
    split_ifs with h1 h2
    · intro _
      exact ⟨h1.1, rfl⟩
    · intro _
      exact ⟨h1.1, rfl⟩
    · intro hne
      exact absurd rfl hne
  · intro n h
    exact stepPipeN_passed bf mb n p sc hi h

/-- Witness for C6: the concrete overtaken pipe scores exactly once, and
five further evaluations of the scored pipe leave the score at 7. -/
theorem scoring_idempotent_witness :
    (pW.passed = false ∧ (stepPipe 130 0 pW 3 3).1.passed = true)
      ∧ (stepPipeN 130 0 5 (pWdone, 7, 9)).2.1 = 7 :=
  ⟨(scoring_idempotent 130 0 pW 3 3).1
      (by norm_num [stepPipe, pW, pipeWidth]),
   ((scoring_idempotent 130 0 pWdone 7 9).2 5 rfl).1⟩

/-- The pipe positions after the forEach pass are exactly the previous ones
shifted left by `moveBy`. -/
theorem runPipes_map_x (bf mb : ℚ) (ps : List Pipe) (sc hi : ℕ) :
    (runPipes bf mb ps sc hi).1.map Pipe.x = ps.map fun p => p.x - mb := by
  induction ps generalizing sc hi with
  | nil => rfl
  | cons p ps ih =>
    simp only [runPipes, List.map_cons, stepPipe_x, ih]

/-- C8 (counterexample): a concrete run — spawn at t=1000, advance one frame
of 1/60 s, spawn again at t=2600 — leaves gates at x = 397.6 then x = 400 in
insertion order, which is not non-increasing. -/
theorem pipes_not_nonincreasing :
    ¬ List.Sorted (fun a b : ℚ => b ≤ a) (c8state.pipes.map Pipe.x) := by
  have hx : c8state.pipes.map Pipe.x = [1988/5, 400] := by
    norm_num [c8state, createPipe, updatePipes, runPipes, stepPipe, evict,
      newPipe, st0W, szW, pipeSpeed, pipeWidth, birdX, pipeGap, minPipeHeight,
      List.filter]
  rw [hx]
  intro hcontra
  have hle := List.rel_of_sorted_cons hcontra 400 (by simp)
  norm_num at hle

/-- C8 (amended): gates are only ever removed by the update — the surviving
collection is a sublist of the moved collection, so a removed gate is never
re-added — and the horizontal positions are non-decreasing in insertion
order (the oldest gate is leftmost), an order preserved by both the update
and a new spawn at the right edge. -/
theorem pipes_order_invariant (sz : Sizes) (ds r now : ℚ) (s : GameState)
    (hds : 0 ≤ ds)
    (hsort : List.Sorted (· ≤ ·) (s.pipes.map Pipe.x))
    (hW : ∀ p ∈ s.pipes, p.x ≤ sz.gameWidth) :
    ((updatePipes sz ds s).pipes.Sublist
        (runPipes (birdX + sz.birdWidth) (pipeSpeed * 60 * ds) s.pipes
          s.score s.highScore).1)
      ∧ List.Sorted (· ≤ ·) ((updatePipes sz ds s).pipes.map Pipe.x)
      ∧ (∀ p ∈ (updatePipes sz ds s).pipes, p.x ≤ sz.gameWidth)
      ∧ List.Sorted (· ≤ ·) ((createPipe sz r now s).pipes.map Pipe.x)
      ∧ (∀ p ∈ (createPipe sz r now s).pipes, p.x ≤ sz.gameWidth) := by
  have hmb0 : 0 ≤ pipeSpeed * 60 * ds :=
    mul_nonneg (mul_nonneg (by norm_num [pipeSpeed]) (by norm_num)) hds
  have hrun : (runPipes (birdX + sz.birdWidth) (pipeSpeed * 60 * ds) s.pipes
      s.score s.highScore).1.map Pipe.x
      = s.pipes.map fun p => p.x - pipeSpeed * 60 * ds :=
    runPipes_map_x _ _ _ _ _
  have hupd : (updatePipes sz ds s).pipes
      = evict (runPipes (birdX + sz.birdWidth) (pipeSpeed * 60 * ds) s.pipes
          s.score s.highScore).1 := rfl
  have hsub : (updatePipes sz ds s).pipes.Sublist
      (runPipes (birdX + sz.birdWidth) (pipeSpeed * 60 * ds) s.pipes
        s.score s.highScore).1 := by
    rw [hupd]
    exact List.filter_sublist _
  have hsort2 : List.Sorted (· ≤ ·)
      ((runPipes (birdX + sz.birdWidth) (pipeSpeed * 60 * ds) s.pipes
        s.score s.highScore).1.map Pipe.x) := by
    rw [hrun]
    have h1 : List.Pairwise (fun a b : Pipe => a.x ≤ b.x) s.pipes :=
      List.pairwise_map.mp hsort
    exact List.pairwise_map.mpr (h1.imp fun hab => sub_le_sub_right hab _)
  refine ⟨hsub, ?_, ?_, ?_, ?_⟩
  · exact List.Pairwise.sublist (hsub.map Pipe.x) hsort2
  · intro p hp
    have hp1 := hsub.subset hp
    have hx : p.x ∈ (runPipes (birdX + sz.birdWidth) (pipeSpeed * 60 * ds)
        s.pipes s.score s.highScore).1.map Pipe.x :=
      List.mem_map_of_mem Pipe.x hp1
    rw [hrun] at hx
    rcases List.mem_map.mp hx with ⟨q, hq, hxq⟩
    have hqW := hW q hq
    calc p.x = q.x - pipeSpeed * 60 * ds := hxq.symm
      _ ≤ q.x := by linarith
      _ ≤ sz.gameWidth := hqW
  · have hmap : (createPipe sz r now s).pipes.map Pipe.x
        = s.pipes.map Pipe.x ++ [sz.gameWidth] := by
      simp [createPipe, newPipe]
    rw [hmap]
    refine List.pairwise_append.mpr ⟨hsort, List.pairwise_singleton _ _, ?_⟩
    intro a ha b hb
    rcases List.mem_map.mp ha with ⟨q, hq, hxq⟩
    rw [List.mem_singleton] at hb
    rw [hb, ← hxq]
    exact hW q hq
  · intro p hp
    rw [show (createPipe sz r now s).pipes = s.pipes ++ [newPipe sz r] from rfl,
      List.mem_append, List.mem_singleton] at hp
    rcases hp with hp | hp
    · exact hW p hp
    · rw [hp]
      exact le_refl sz.gameWidth

/-- Witness for C8 at a concrete pipe-free state. -/
theorem pipes_order_invariant_witness :
    List.Sorted (· ≤ ·) ((createPipe szW (1/2) 1000 st0W).pipes.map Pipe.x)
      ∧ (∀ p ∈ (updatePipes szW (1/60) st0W).pipes, p.x ≤ szW.gameWidth) :=
  ⟨(pipes_order_invariant szW (1/60) (1/2) 1000 st0W (by norm_num)
      (by simp [st0W]) (by simp [st0W])).2.2.2.1,
   (pipes_order_invariant szW (1/60) (1/2) 1000 st0W (by norm_num)
      (by simp [st0W]) (by simp [st0W])).2.2.1⟩

end Flappy
